import Mathlib

/-!
Verification of the ghost playback engine (`src/karts/ghost_kart.cpp`).

The engine replays a recorded kart run: on each tick it reads the playback
cursor (frame index, interpolation fraction, end flag), interpolates position
and orientation between the two bracketing recorded frames, and forwards
derived effect values (nitro intensity, zipper trigger, animation channels,
front reference point).

Positions, speeds and other physics channels are modelled over ℚ (the C++
float arithmetic restricted to the exact operations the code performs);
orientation quaternions, whose interpolation is transcendental, are modelled
over ℝ.
-/

namespace GhostKartSpec

/-- A 3-vector of rational coordinates (the `btVector3` origin channel). -/
structure Vec3 where
  x : ℚ
  y : ℚ
  z : ℚ
deriving DecidableEq, Repr

def Vec3.add (a b : Vec3) : Vec3 := ⟨a.x + b.x, a.y + b.y, a.z + b.z⟩

def Vec3.smul (c : ℚ) (v : Vec3) : Vec3 := ⟨c * v.x, c * v.y, c * v.z⟩

/-- A quaternion with real coordinates, `w` the scalar part (`btQuaternion`). -/
structure Quat where
  x : ℝ
  y : ℝ
  z : ℝ
  w : ℝ

def Quat.dot (p q : Quat) : ℝ := p.x * q.x + p.y * q.y + p.z * q.z + p.w * q.w

/-- Squared norm of a quaternion (`btQuaternion::length2`). -/
def Quat.norm2 (q : Quat) : ℝ := q.x ^ 2 + q.y ^ 2 + q.z ^ 2 + q.w ^ 2

/-- A 3-vector of real coordinates, used where a vector is produced by a
quaternion rotation (the front reference point). -/
structure VecR where
  x : ℝ
  y : ℝ
  z : ℝ

def Vec3.toR (v : Vec3) : VecR := ⟨(v.x : ℝ), (v.y : ℝ), (v.z : ℝ)⟩

def VecR.add (a b : VecR) : VecR := ⟨a.x + b.x, a.y + b.y, a.z + b.z⟩

/-- Rotation of a vector by a unit quaternion, via the standard rotation
matrix (`btMatrix3x3::setRotation` applied to the vector). -/
def Quat.apply (q : Quat) (v : VecR) : VecR :=
  ⟨(1 - 2 * (q.y ^ 2 + q.z ^ 2)) * v.x + 2 * (q.x * q.y - q.z * q.w) * v.y +
      2 * (q.x * q.z + q.y * q.w) * v.z,
   2 * (q.x * q.y + q.z * q.w) * v.x + (1 - 2 * (q.x ^ 2 + q.z ^ 2)) * v.y +
      2 * (q.y * q.z - q.x * q.w) * v.z,
   2 * (q.x * q.z - q.y * q.w) * v.x + 2 * (q.y * q.z + q.x * q.w) * v.y +
      (1 - 2 * (q.x ^ 2 + q.y ^ 2)) * v.z⟩

/-- Modelled from the spec: the spherical (shortest-arc, constant-angular-
velocity) interpolation between two unit quaternions used by the orientation
step (§4.2 item 7).  The implementation called by the source,
`btQuaternion::slerp` of the bundled Bullet LinearMath library, is not under
`src/`; this follows the description in the spec (and the standard formula):
normalize the dot product, flip the sign for the shortest arc, and blend with
`sin((1-t)θ)/sin θ` and `sin(tθ)/sin θ` coefficients, falling back to the
first endpoint when the inputs are (anti-)parallel. -/
noncomputable def Quat.slerp (q0 q1 : Quat) (t : ℝ) : Quat :=
  let magnitude := Real.sqrt (q0.norm2 * q1.norm2)
  let product := Quat.dot q0 q1 / magnitude
  if |product| < 1 then
    let sign : ℝ := if product < 0 then -1 else 1
    let θ := Real.arccos (sign * product)
    let s1 := Real.sin (sign * t * θ)
    let d := 1 / Real.sin θ
    let s0 := Real.sin ((1 - t) * θ)
    ⟨(q0.x * s0 + q1.x * s1) * d, (q0.y * s0 + q1.y * s1) * d,
     (q0.z * s0 + q1.z * s1) * d, (q0.w * s0 + q1.w * s1) * d⟩
  else q0

/-- Modelled from the spec: the linear blend of two quaternions (§4.2 item 7
mentions it only as the rejected alternative to spherical interpolation). -/
def Quat.lerp (q0 q1 : Quat) (t : ℝ) : Quat :=
  ⟨(1 - t) * q0.x + t * q1.x, (1 - t) * q0.y + t * q1.y,
   (1 - t) * q0.z + t * q1.z, (1 - t) * q0.w + t * q1.w⟩

/-- A recorded rigid transform (`btTransform`): origin and rotation. -/
structure Transform where
  origin : Vec3
  rotation : Quat

/-- One recorded physics sample (`ReplayBase::PhysicInfo`): speed, steering
angle and the four suspension-compression lengths. -/
structure PhysicInfo where
  m_speed : ℚ
  m_steer : ℚ
  m_suspension_length : Fin 4 → ℚ

/-- The recorded event flags of a frame (`ReplayBase::KartReplayEvent`). -/
structure KartReplayEvent where
  m_on_nitro : Bool
  m_on_zipper : Bool
deriving DecidableEq, Repr

/-- Modelled from the spec: the view the engine reads from the playback
cursor after its advance step — `GhostController` lives outside `src/`.
`ended` is `isReplayEnd()`, `idx` is `getCurrentReplayIndex()`, `rd` is
`getReplayDelta()` (§3, §6). -/
structure GhostController where
  ended : Bool
  idx : ℕ
  rd : ℚ

/-- The per-tick numeric channels forwarded to the visual-model animation
collaborator (`KartModel::update` arguments: dt, dt·speed, steer, speed,
frame index). -/
structure AnimInput where
  dt : ℚ
  distance : ℚ
  steer : ℚ
  speed : ℚ
  frame : ℕ
deriving DecidableEq, Repr

/-- The state of a ghost kart: the append-only frame store (the three
parallel arrays of `GhostKart`), the one-time baseline offset, the model
constants, and the per-tick outputs last forwarded to collaborators. -/
structure GhostKart where
  hasGhostController : Bool
  m_all_transform : List Transform
  m_all_physic_info : List PhysicInfo
  m_all_replay_events : List KartReplayEvent
  m_graphical_y_offset : ℚ
  engineMaxSpeed : ℚ
  kartLength : ℚ
  lowestPoint : ℚ
  visible : Bool
  m_xyz : Vec3
  m_rotation : Quat
  nitroGraphics : ℚ
  zipperFire : Bool
  kartModelInput : AnimInput
  m_xyz_front : VecR

/-- The defensive check `assert(idx < m_all_transform.size())` performed by
`GhostKart::update` before reading frames (line 87 of the source). -/
def updateAssert (idx n : ℕ) : Bool := decide (idx < n)

/-- The nitro-intensity computation of `GhostKart::update` (lines 89–97):
`fabsf(speed)/engineMaxSpeed` clamped down to 1 when the nitro flag of the frame
is set, `0` otherwise. -/
def nitroFrac (ev : KartReplayEvent) (pi : PhysicInfo) (maxSpeed : ℚ) : ℚ :=
  if ev.m_on_nitro then
    let nf := |pi.m_speed| / maxSpeed
    if nf > 1 then 1 else nf
  else 0

/-- The non-ended body of `GhostKart::update` (lines 85–120), applied to the
four frame reads it performs: forwards the nitro intensity and zipper flag,
sets the position to the linear interpolation of the two origins, the
rotation to the slerp of the two rotations, forwards the animation channels,
and recomputes the front reference point from the new transform. -/
noncomputable def GhostKart.updateCore (k : GhostKart) (c : GhostController)
    (dt : ℚ) (ev : KartReplayEvent) (pinfo : PhysicInfo)
    (t0 t1 : Transform) : GhostKart :=
  let newXYZ := Vec3.add (Vec3.smul (1 - c.rd) t0.origin)
                         (Vec3.smul c.rd t1.origin)
  let q := Quat.slerp t0.rotation t1.rotation (c.rd : ℝ)
  let front : VecR := ⟨0, 0, (k.kartLength : ℝ) * (1 / 2)⟩
  { k with
    nitroGraphics := nitroFrac ev pinfo k.engineMaxSpeed,
    zipperFire := ev.m_on_zipper,
    m_xyz := newXYZ,
    m_rotation := q,
    kartModelInput := ⟨dt, dt * pinfo.m_speed, pinfo.m_steer, pinfo.m_speed, c.idx⟩,
    m_xyz_front := VecR.add (Quat.apply q front) (Vec3.toR newXYZ) }

/-- Embedding of `GhostKart::update(dt)` (lines 73–121).  The argument `gc` is the view of
the ghost controller after its own `update(dt)` advance (the side effect
owned by the collaborator); `none` models a failed `dynamic_cast`.  The
result is `none` exactly when an assertion fails or a frame read is out of
the bounds of the store (fatal, not recoverable). -/
noncomputable def GhostKart.update (k : GhostKart) (dt : ℚ)
    (gc : Option GhostController) : Option GhostKart :=
  match gc with
  | none => some k
  | some c =>
    if c.ended then some { k with visible := false }
    else if updateAssert c.idx k.m_all_transform.length = false then none
    else
      match k.m_all_replay_events.get? c.idx, k.m_all_physic_info.get? c.idx,
            k.m_all_transform.get? c.idx, k.m_all_transform.get? (c.idx + 1) with
      | some ev, some pinfo, some t0, some t1 =>
          some (k.updateCore c dt ev pinfo t0 t1)
      | _, _, _, _ => none

/-- Embedding of `GhostKart::getSpeed()` (lines 125–132): the recorded speed
at the current cursor index, after `assert(idx < m_all_physic_info.size())`. -/
def GhostKart.getSpeed (k : GhostKart) (gc : GhostController) : Option ℚ :=
  if h : gc.idx < k.m_all_physic_info.length then
    some (k.m_all_physic_info.get ⟨gc.idx, h⟩).m_speed
  else none

/-- Embedding of `GhostKart::addReplayEvent` (lines 45–67): appends the transform, physics
sample and event flags to the three parallel arrays; on the very first frame
computes the one-time graphical y offset from the average of the four
suspension lengths and the lowest point of the model, mirroring lines 57–65. -/
def GhostKart.addReplayEvent (k : GhostKart) (trans : Transform)
    (pinfo : PhysicInfo) (kre : KartReplayEvent) : GhostKart :=
  let k1 := { k with
    m_all_transform := k.m_all_transform ++ [trans],
    m_all_physic_info := k.m_all_physic_info ++ [pinfo],
    m_all_replay_events := k.m_all_replay_events ++ [kre] }
  if k1.m_all_physic_info.length = 1 then
    let f := match k1.m_all_physic_info.get? 0 with
      | some p0 => p0.m_suspension_length 0 + p0.m_suspension_length 1 +
          p0.m_suspension_length 2 + p0.m_suspension_length 3
      | none => 0
    { k1 with m_graphical_y_offset := -f / 4 + k1.lowestPoint }
  else k1

/-- Modelled from the spec: the cursor state right after the cursor-side
`reset()` — frame 0, interpolation fraction 0, not ended (§4.4, §6);
`GhostController::reset` is not under `src/`. -/
def resetCursor : GhostController := ⟨false, 0, 0⟩

/-- Embedding of `GhostKart::reset()` (lines 36–42): make the node visible, delegate the
index/time reset to the cursor (part of `Kart::reset()`, outside `src/`,
modelled from the spec §4.4), then run one `update(0)`. -/
noncomputable def GhostKart.reset (k : GhostKart) : Option GhostKart :=
  ({ k with visible := true }).update 0 (some resetCursor)

/-- The fields of the kart state that are data (frame store, constants,
baseline offset, controller presence) rather than per-tick outputs. -/
def sameData (a b : GhostKart) : Prop :=
  a.hasGhostController = b.hasGhostController ∧
  a.m_all_transform = b.m_all_transform ∧
  a.m_all_physic_info = b.m_all_physic_info ∧
  a.m_all_replay_events = b.m_all_replay_events ∧
  a.m_graphical_y_offset = b.m_graphical_y_offset ∧
  a.engineMaxSpeed = b.engineMaxSpeed ∧
  a.kartLength = b.kartLength ∧
  a.lowestPoint = b.lowestPoint

/-- Modelled from the spec: the invariant the playback cursor guarantees the
engine (§3): while `ended` is false, `idx+1` is a valid store index. -/
def cursorContract (c : GhostController) (frameCount : ℕ) : Prop :=
  c.ended = false → c.idx + 1 < frameCount

/-! ### Concrete example data used by the witnesses -/

def exQuatId : Quat := ⟨0, 0, 0, 1⟩

def exTransform0 : Transform := ⟨⟨0, 0, 0⟩, exQuatId⟩

def exTransform1 : Transform := ⟨⟨10, 0, 0⟩, exQuatId⟩

def exPhysic (s : ℚ) : PhysicInfo := ⟨s, 0, ![1, 1, 1, 1]⟩

def exEvent : KartReplayEvent := ⟨false, false⟩

def baseKart : GhostKart :=
  { hasGhostController := true, m_all_transform := [],
    m_all_physic_info := [], m_all_replay_events := [],
    m_graphical_y_offset := 0, engineMaxSpeed := 20, kartLength := 2,
    lowestPoint := 0, visible := true, m_xyz := ⟨0, 0, 0⟩,
    m_rotation := exQuatId, nitroGraphics := 0, zipperFire := false,
    kartModelInput := ⟨0, 0, 0, 0, 0⟩, m_xyz_front := ⟨0, 0, 0⟩ }

/-- A kart with a single recorded frame. -/
def exK1 : GhostKart :=
  { baseKart with
    m_all_transform := [exTransform0],
    m_all_physic_info := [exPhysic 5],
    m_all_replay_events := [exEvent] }

/-- The two-frame store of §8: positions `(0,0,0)` and `(10,0,0)`, recorded
speeds `5` and `7`. -/
def exK2 : GhostKart :=
  { baseKart with
    m_all_transform := [exTransform0, exTransform1],
    m_all_physic_info := [exPhysic 5, exPhysic 7],
    m_all_replay_events := [exEvent, exEvent] }

/-! ### Shared unfolding lemma for the non-ended tick -/

/-- On a non-ended tick whose frame reads are all in bounds, `update`
succeeds and produces exactly the `updateCore` state. -/
theorem GhostKart.update_eq_core (k : GhostKart) (c : GhostController)
    (dt : ℚ) (he : c.ended = false)
    (hev : c.idx < k.m_all_replay_events.length)
    (hpi : c.idx < k.m_all_physic_info.length)
    (ht1 : c.idx + 1 < k.m_all_transform.length) :
    k.update dt (some c) =
      some (k.updateCore c dt (k.m_all_replay_events.get ⟨c.idx, hev⟩)
        (k.m_all_physic_info.get ⟨c.idx, hpi⟩)
        (k.m_all_transform.get ⟨c.idx, Nat.lt_of_succ_lt ht1⟩)
        (k.m_all_transform.get ⟨c.idx + 1, ht1⟩)) := by
  have h0 : c.idx < k.m_all_transform.length := Nat.lt_of_succ_lt ht1
  rw [GhostKart.update]
  simp only [he, Bool.false_eq_true, if_false, updateAssert,
    List.get?_eq_get hev, List.get?_eq_get hpi, List.get?_eq_get h0,
    List.get?_eq_get ht1]
  simp [h0]

/-! ### Claim theorems -/

/-- C10: when the controller is not a `GhostController` (the dynamic cast
yields null), `update` is a silent no-op: it returns the state unchanged,
advancing nothing and touching no pose, effect or visibility field. -/
theorem update_no_controller_no_op (k : GhostKart) (dt : ℚ) :
    k.update dt none = some k := rfl

/-- C5: when the cursor reports `ended` after advancing, `update` hides the
entity and returns at once: position, orientation, nitro intensity, zipper
trigger, animation channels and front reference point are all unchanged. -/
theorem update_ended_hides_and_preserves (k : GhostKart) (dt : ℚ)
    (c : GhostController) (he : c.ended = true) :
    ∃ k', k.update dt (some c) = some k' ∧ k'.visible = false ∧
      k'.m_xyz = k.m_xyz ∧ k'.m_rotation = k.m_rotation ∧
      k'.nitroGraphics = k.nitroGraphics ∧ k'.zipperFire = k.zipperFire ∧
      k'.kartModelInput = k.kartModelInput ∧
      k'.m_xyz_front = k.m_xyz_front :=
  ⟨{ k with visible := false }, by simp [GhostKart.update, he],
   rfl, rfl, rfl, rfl, rfl, rfl, rfl⟩

theorem update_ended_hides_and_preserves_witness :
    ∃ k', exK2.update 1 (some ⟨true, 0, 0⟩) = some k' ∧ k'.visible = false ∧
      k'.m_xyz = exK2.m_xyz ∧ k'.m_rotation = exK2.m_rotation ∧
      k'.nitroGraphics = exK2.nitroGraphics ∧
      k'.zipperFire = exK2.zipperFire ∧
      k'.kartModelInput = exK2.kartModelInput ∧
      k'.m_xyz_front = exK2.m_xyz_front :=
  update_ended_hides_and_preserves exK2 1 ⟨true, 0, 0⟩ rfl

/-- C9: with an empty frame store, any cursor satisfying the collaborator
contract must report `ended`, so `update` treats the replay as immediately
over: it hides the entity and returns gracefully, with no failure and no
pose or effect output. -/
theorem update_empty_store_ended (k : GhostKart) (dt : ℚ)
    (c : GhostController) (hempty : k.m_all_transform = [])
    (hc : cursorContract c k.m_all_transform.length) :
    k.update dt (some c) = some { k with visible := false } := by
  have he : c.ended = true := by
    by_contra h
    have hlt := hc (Bool.not_eq_true _ ▸ (by simpa using h))
    rw [hempty] at hlt
    simp at hlt
  simp [GhostKart.update, he]

theorem update_empty_store_ended_witness :
    baseKart.update 1 (some ⟨true, 0, 0⟩) =
      some { baseKart with visible := false } :=
  update_empty_store_ended baseKart 1 ⟨true, 0, 0⟩ rfl
    (fun h => Bool.noConfusion h)

/-- C2: `getSpeed` returns exactly the recorded speed of the frame at the
current cursor index, with no interpolation toward the next frame: the
result does not depend on the interpolation fraction at all. -/
theorem getSpeed_uninterpolated (k : GhostKart) (gc : GhostController)
    (h : gc.idx < k.m_all_physic_info.length) :
    k.getSpeed gc = some (k.m_all_physic_info.get ⟨gc.idx, h⟩).m_speed ∧
      ∀ rd', k.getSpeed ⟨gc.ended, gc.idx, rd'⟩ = k.getSpeed gc := by
  constructor
  · simp [GhostKart.getSpeed, h]
  · intro rd'
    simp [GhostKart.getSpeed]

theorem getSpeed_uninterpolated_witness :
    exK2.getSpeed ⟨false, 0, 1 / 2⟩ = some 5 ∧ (5 : ℚ) ≠ 6 := by
  have h := getSpeed_uninterpolated exK2 ⟨false, 0, 1 / 2⟩ (by decide)
  exact ⟨h.1.trans (by decide), by decide⟩

/-- C8 counterexample: the defensive check the code performs is
`assert(idx < m_all_transform.size())`, not `idx + 1 < frameCount()`: on a
one-frame store with `idx = 0` the check passes, yet the read at `idx + 1`
is out of bounds and the tick fails. -/
theorem update_bounds_check_refuted :
    updateAssert 0 exK1.m_all_transform.length = true ∧
      ¬ (0 + 1 < exK1.m_all_transform.length) ∧
      exK1.update 0 (some ⟨false, 0, 0⟩) = none :=
  ⟨rfl, by decide, rfl⟩

/-- C8 (amended): the check `update` performs before reading frames is
`idx < frameCount()`; a failed check is fatal for the tick (no recovery),
and all four frame reads are in bounds — the tick succeeds — when
additionally `idx + 1 < frameCount()`, the bound the cursor contract
guarantees. -/
theorem update_bounds_check_amended (k : GhostKart) (c : GhostController)
    (dt : ℚ) (he : c.ended = false) :
    (updateAssert c.idx k.m_all_transform.length = true ↔
      c.idx < k.m_all_transform.length) ∧
    (updateAssert c.idx k.m_all_transform.length = false →
      k.update dt (some c) = none) ∧
    (c.idx < k.m_all_replay_events.length →
      c.idx < k.m_all_physic_info.length →
      c.idx + 1 < k.m_all_transform.length →
      ∃ k', k.update dt (some c) = some k') := by
  refine ⟨by simp [updateAssert], ?_, ?_⟩
  · intro hfail
    rw [GhostKart.update]
    simp [he, hfail]
  · intro hev hpi ht1
    exact ⟨_, k.update_eq_core c dt he hev hpi ht1⟩

theorem update_bounds_check_amended_witness :
    (updateAssert 0 exK2.m_all_transform.length = true ↔
      0 < exK2.m_all_transform.length) ∧
    (updateAssert 0 exK2.m_all_transform.length = false →
      exK2.update 1 (some ⟨false, 0, 1 / 2⟩) = none) ∧
    (0 < exK2.m_all_replay_events.length →
      0 < exK2.m_all_physic_info.length →
      0 + 1 < exK2.m_all_transform.length →
      ∃ k', exK2.update 1 (some ⟨false, 0, 1 / 2⟩) = some k') :=
  update_bounds_check_amended exK2 ⟨false, 0, 1 / 2⟩ 1 rfl

theorem Vec3.add_smul_zero (v w : Vec3) :
    Vec3.add (Vec3.smul (1 - 0) v) (Vec3.smul 0 w) = v := by
  cases v; cases w; simp [Vec3.add, Vec3.smul]

/-- C1: on a non-ended tick with `idx + 1` a valid frame index and
`rd ∈ [0,1)`, `update` sets the position to the linear interpolation
`(1-rd)·P[idx] + rd·P[idx+1]` of the recorded origins; at `rd = 0` the
position is exactly `P[idx]`. -/
theorem update_position_lerp (k : GhostKart) (c : GhostController) (dt : ℚ)
    (he : c.ended = false)
    (hev : c.idx < k.m_all_replay_events.length)
    (hpi : c.idx < k.m_all_physic_info.length)
    (ht1 : c.idx + 1 < k.m_all_transform.length)
    (hrd0 : 0 ≤ c.rd) (hrd1 : c.rd < 1) :
    ∃ k', k.update dt (some c) = some k' ∧
      k'.m_xyz = Vec3.add
        (Vec3.smul (1 - c.rd)
          (k.m_all_transform.get ⟨c.idx, Nat.lt_of_succ_lt ht1⟩).origin)
        (Vec3.smul c.rd (k.m_all_transform.get ⟨c.idx + 1, ht1⟩).origin) ∧
      (c.rd = 0 → k'.m_xyz =
        (k.m_all_transform.get ⟨c.idx, Nat.lt_of_succ_lt ht1⟩).origin) := by
  refine ⟨_, k.update_eq_core c dt he hev hpi ht1, rfl, ?_⟩
  intro h0
  simp only [GhostKart.updateCore]
  rw [h0]
  exact Vec3.add_smul_zero _ _

theorem update_position_lerp_witness :
    ∃ k', exK2.update 0 (some ⟨false, 0, 1 / 2⟩) = some k' ∧
      k'.m_xyz = Vec3.add
        (Vec3.smul (1 - 1 / 2) (exK2.m_all_transform.get ⟨0, by decide⟩).origin)
        (Vec3.smul (1 / 2) (exK2.m_all_transform.get ⟨1, by decide⟩).origin) ∧
      ((1 / 2 : ℚ) = 0 → k'.m_xyz =
        (exK2.m_all_transform.get ⟨0, by decide⟩).origin) :=
  update_position_lerp exK2 ⟨false, 0, 1 / 2⟩ 0 rfl (by decide) (by decide)
    (by decide) (by norm_num) (by norm_num)

theorem nitroFrac_eq_min (ev : KartReplayEvent) (pinfo : PhysicInfo)
    (m : ℚ) (hm : 0 < m) :
    nitroFrac ev pinfo m =
      if ev.m_on_nitro then min 1 (|pinfo.m_speed| / m) else 0 := by
  rw [nitroFrac]
  cases ev.m_on_nitro with
  | false => simp
  | true =>
    simp only [if_true]
    rcases le_or_lt (|pinfo.m_speed| / m) 1 with h | h
    · rw [if_neg (not_lt.mpr h), min_eq_right h]
    · rw [if_pos h, min_eq_left h.le]

theorem nitroFrac_mem_unit (ev : KartReplayEvent) (pinfo : PhysicInfo)
    (m : ℚ) (hm : 0 < m) :
    0 ≤ nitroFrac ev pinfo m ∧ nitroFrac ev pinfo m ≤ 1 := by
  rw [nitroFrac_eq_min ev pinfo m hm]
  cases ev.m_on_nitro with
  | false => simp
  | true =>
    simp only [if_true]
    exact ⟨le_min zero_le_one (div_nonneg (abs_nonneg _) hm.le), min_le_left _ _⟩

/-- C3: on a non-ended tick the nitro intensity forwarded to the effects
collaborator is `min(1, |speed[idx]| / maxEngineSpeed)` when the per-frame
nitro flag is set and `0` otherwise, hence always within `[0,1]`, for every
recorded speed (negative or exceeding `maxEngineSpeed` included). -/
theorem update_nitro_clamped (k : GhostKart) (c : GhostController) (dt : ℚ)
    (he : c.ended = false)
    (hev : c.idx < k.m_all_replay_events.length)
    (hpi : c.idx < k.m_all_physic_info.length)
    (ht1 : c.idx + 1 < k.m_all_transform.length)
    (hm : 0 < k.engineMaxSpeed) :
    ∃ k', k.update dt (some c) = some k' ∧
      0 ≤ k'.nitroGraphics ∧ k'.nitroGraphics ≤ 1 ∧
      k'.nitroGraphics =
        (if (k.m_all_replay_events.get ⟨c.idx, hev⟩).m_on_nitro then
          min 1 (|(k.m_all_physic_info.get ⟨c.idx, hpi⟩).m_speed| /
            k.engineMaxSpeed)
        else 0) := by
  refine ⟨_, k.update_eq_core c dt he hev hpi ht1, ?_, ?_, ?_⟩
  · simp only [GhostKart.updateCore]
    exact (nitroFrac_mem_unit _ _ _ hm).1
  · simp only [GhostKart.updateCore]
    exact (nitroFrac_mem_unit _ _ _ hm).2
  · simp only [GhostKart.updateCore]
    exact nitroFrac_eq_min _ _ _ hm

def exEventN : KartReplayEvent := ⟨true, false⟩

/-- A store whose first frame has the nitro flag set and a recorded speed of
`30`, above the engine maximum of `20`. -/
def exKN : GhostKart :=
  { baseKart with
    m_all_transform := [exTransform0, exTransform1],
    m_all_physic_info := [exPhysic 30, exPhysic 7],
    m_all_replay_events := [exEventN, exEvent] }

theorem update_nitro_clamped_witness :
    ∃ k', exKN.update 1 (some ⟨false, 0, 0⟩) = some k' ∧
      0 ≤ k'.nitroGraphics ∧ k'.nitroGraphics ≤ 1 ∧
      k'.nitroGraphics =
        (if (exKN.m_all_replay_events.get ⟨0, by decide⟩).m_on_nitro then
          min 1 (|(exKN.m_all_physic_info.get ⟨0, by decide⟩).m_speed| /
            exKN.engineMaxSpeed)
        else 0) :=
  update_nitro_clamped exKN ⟨false, 0, 0⟩ 1 rfl (by decide) (by decide)
    (by decide) (by decide)

/-! ### Baseline offset lifecycle -/

/-- A load phase: fold `addReplayEvent` over a list of recorded samples. -/
def applyEvents (evs : List (Transform × PhysicInfo × KartReplayEvent))
    (k : GhostKart) : GhostKart :=
  evs.foldl (fun s e => s.addReplayEvent e.1 e.2.1 e.2.2) k

theorem addReplayEvent_physic (k : GhostKart) (tr : Transform)
    (pinfo : PhysicInfo) (kre : KartReplayEvent) :
    (k.addReplayEvent tr pinfo kre).m_all_physic_info =
      k.m_all_physic_info ++ [pinfo] := by
  rw [GhostKart.addReplayEvent]
  split <;> rfl

theorem addReplayEvent_offset_stable (k : GhostKart) (tr : Transform)
    (pinfo : PhysicInfo) (kre : KartReplayEvent)
    (h : k.m_all_physic_info ≠ []) :
    (k.addReplayEvent tr pinfo kre).m_graphical_y_offset =
      k.m_graphical_y_offset := by
  have hlen : (k.m_all_physic_info ++ [pinfo]).length ≠ 1 := by
    rw [List.length_append]
    simp only [List.length_singleton]
    intro hc
    exact h (List.length_eq_zero.mp (by omega))
  simp only [GhostKart.addReplayEvent]
  rw [if_neg hlen]

theorem addReplayEvent_first_offset (k : GhostKart) (tr : Transform)
    (pinfo : PhysicInfo) (kre : KartReplayEvent)
    (h : k.m_all_physic_info = []) :
    (k.addReplayEvent tr pinfo kre).m_graphical_y_offset =
      -(pinfo.m_suspension_length 0 + pinfo.m_suspension_length 1 +
        pinfo.m_suspension_length 2 + pinfo.m_suspension_length 3) / 4 +
        k.lowestPoint := by
  rw [GhostKart.addReplayEvent]
  simp [h]

theorem applyEvents_offset_stable
    (evs : List (Transform × PhysicInfo × KartReplayEvent)) :
    ∀ k : GhostKart, k.m_all_physic_info ≠ [] →
      (applyEvents evs k).m_graphical_y_offset = k.m_graphical_y_offset := by
  induction evs with
  | nil => intro k _; rfl
  | cons e rest ih =>
    intro k hk
    have hne : (k.addReplayEvent e.1 e.2.1 e.2.2).m_all_physic_info ≠ [] := by
      rw [addReplayEvent_physic]
      simp
    calc (applyEvents (e :: rest) k).m_graphical_y_offset
        = (applyEvents rest (k.addReplayEvent e.1 e.2.1 e.2.2)).m_graphical_y_offset := rfl
      _ = (k.addReplayEvent e.1 e.2.1 e.2.2).m_graphical_y_offset := ih _ hne
      _ = k.m_graphical_y_offset := addReplayEvent_offset_stable k e.1 e.2.1 e.2.2 hk

/-- C7: starting from a kart with no recorded frames, the graphical y offset
is computed at the very first append — the negated average of the four
suspension-compression lengths of that frame plus the lowest point of the
model — and any
further sequence of appends leaves it unchanged. -/
theorem baseline_offset_computed_once (k0 : GhostKart)
    (h : k0.m_all_physic_info = []) (tr : Transform) (pinfo : PhysicInfo)
    (kre : KartReplayEvent)
    (rest : List (Transform × PhysicInfo × KartReplayEvent)) :
    (k0.addReplayEvent tr pinfo kre).m_graphical_y_offset =
      -(pinfo.m_suspension_length 0 + pinfo.m_suspension_length 1 +
        pinfo.m_suspension_length 2 + pinfo.m_suspension_length 3) / 4 +
        k0.lowestPoint ∧
    (applyEvents rest (k0.addReplayEvent tr pinfo kre)).m_graphical_y_offset =
      (k0.addReplayEvent tr pinfo kre).m_graphical_y_offset := by
  refine ⟨addReplayEvent_first_offset k0 tr pinfo kre h, ?_⟩
  apply applyEvents_offset_stable
  rw [addReplayEvent_physic, h]
  simp

theorem baseline_offset_computed_once_witness :
    (baseKart.addReplayEvent exTransform0 (exPhysic 5) exEvent).m_graphical_y_offset =
      -((exPhysic 5).m_suspension_length 0 + (exPhysic 5).m_suspension_length 1 +
        (exPhysic 5).m_suspension_length 2 + (exPhysic 5).m_suspension_length 3) / 4 +
        baseKart.lowestPoint ∧
    (applyEvents [(exTransform1, exPhysic 7, exEvent)]
        (baseKart.addReplayEvent exTransform0 (exPhysic 5) exEvent)).m_graphical_y_offset =
      (baseKart.addReplayEvent exTransform0 (exPhysic 5) exEvent).m_graphical_y_offset :=
  baseline_offset_computed_once baseKart rfl exTransform0 (exPhysic 5) exEvent
    [(exTransform1, exPhysic 7, exEvent)]

/-! ### Reset -/

/-- A non-ended tick reads only the data fields of the state (frame store,
constants) and overwrites every per-tick output field, so two states that
agree on data and visibility produce the same tick result. -/
theorem update_congr_data (a b : GhostKart) (hd : sameData a b)
    (hv : a.visible = b.visible) (dt : ℚ) (c : GhostController)
    (he : c.ended = false) :
    a.update dt (some c) = b.update dt (some c) := by
  obtain ⟨h1, h2, h3, h4, h5, h6, h7, h8⟩ := hd
  cases a
  cases b
  simp only at h1 h2 h3 h4 h5 h6 h7 h8 hv
  subst h1 h2 h3 h4 h5 h6 h7 h8 hv
  rw [GhostKart.update, GhostKart.update]
  simp only [he, Bool.false_eq_true, if_false]
  split
  · rfl
  · rcases hg1 : List.get? _ c.idx with _ | ev <;>
      rcases hg2 : List.get? _ c.idx with _ | pinfo <;>
      rcases hg3 : List.get? _ c.idx with _ | t0 <;>
      rcases hg4 : List.get? _ (c.idx + 1) with _ | t1 <;>
      simp [hg1, hg2, hg3, hg4, GhostKart.updateCore]

/-- C6: the state produced by `reset()` — make the node visible, reset the
cursor to frame 0 with fraction 0, run one `update(0)` — is identical to the
state produced by the very first post-load `update(0)` on any state with the
same loaded data whose entity is still visible. -/
theorem reset_restores_first_update (k1 k2 : GhostKart)
    (hd : sameData k1 k2) (hv : k2.visible = true) :
    k1.reset = k2.update 0 (some resetCursor) := by
  rw [GhostKart.reset]
  exact update_congr_data { k1 with visible := true } k2 hd hv.symm 0
    resetCursor rfl

def exEndedKart : GhostKart :=
  { exK2 with
    visible := false,
    m_xyz := ⟨9, 9, 9⟩,
    nitroGraphics := 3,
    zipperFire := true }

theorem reset_restores_first_update_witness :
    exEndedKart.reset = exK2.update 0 (some resetCursor) :=
  reset_restores_first_update exEndedKart exK2
    ⟨rfl, rfl, rfl, rfl, rfl, rfl, rfl, rfl⟩ rfl

/-! ### Spherical interpolation preserves unit quaternions -/

theorem sin_sq_interp (A B : ℝ) :
    Real.sin A ^ 2 + Real.sin B ^ 2 +
      2 * Real.sin A * Real.sin B * Real.cos (A + B) =
      Real.sin (A + B) ^ 2 := by
  rw [Real.sin_add, Real.cos_add]
  linear_combination (-(Real.sin B ^ 2)) * Real.sin_sq_add_cos_sq A +
    (-(Real.sin A ^ 2)) * Real.sin_sq_add_cos_sq B

theorem slerp_norm_aux (q0 q1 : Quat) (t σ : ℝ)
    (hσ : σ = 1 ∨ σ = -1) (h0 : q0.norm2 = 1) (h1 : q1.norm2 = 1)
    (hprod : 0 ≤ σ * Quat.dot q0 q1) (hlt : σ * Quat.dot q0 q1 < 1) :
    Quat.norm2
      ⟨(q0.x * Real.sin ((1 - t) * Real.arccos (σ * Quat.dot q0 q1)) +
          q1.x * Real.sin (σ * t * Real.arccos (σ * Quat.dot q0 q1))) *
          (1 / Real.sin (Real.arccos (σ * Quat.dot q0 q1))),
        (q0.y * Real.sin ((1 - t) * Real.arccos (σ * Quat.dot q0 q1)) +
          q1.y * Real.sin (σ * t * Real.arccos (σ * Quat.dot q0 q1))) *
          (1 / Real.sin (Real.arccos (σ * Quat.dot q0 q1))),
        (q0.z * Real.sin ((1 - t) * Real.arccos (σ * Quat.dot q0 q1)) +
          q1.z * Real.sin (σ * t * Real.arccos (σ * Quat.dot q0 q1))) *
          (1 / Real.sin (Real.arccos (σ * Quat.dot q0 q1))),
        (q0.w * Real.sin ((1 - t) * Real.arccos (σ * Quat.dot q0 q1)) +
          q1.w * Real.sin (σ * t * Real.arccos (σ * Quat.dot q0 q1))) *
          (1 / Real.sin (Real.arccos (σ * Quat.dot q0 q1)))⟩ = 1 := by
  have hσ2 : σ ^ 2 = 1 := by rcases hσ with h | h <;> rw [h] <;> norm_num
  have hsin : ∀ x : ℝ, Real.sin (σ * x) = σ * Real.sin x := by
    intro x
    rcases hσ with h | h <;> rw [h]
    · rw [one_mul, one_mul]
    · rw [neg_one_mul, Real.sin_neg, neg_one_mul]
  set D := σ * Quat.dot q0 q1 with hD
  set θ := Real.arccos D with hθdef
  have hcos : Real.cos θ = D := Real.cos_arccos (by linarith) hlt.le
  have hθpos : 0 < θ := Real.arccos_pos.mpr hlt
  have hθle : θ ≤ Real.pi / 2 := Real.arccos_le_pi_div_two.mpr hprod
  have hθltpi : θ < Real.pi := lt_of_le_of_lt hθle (by linarith [Real.pi_pos])
  have hsinθ : 0 < Real.sin θ := Real.sin_pos_of_pos_of_lt_pi hθpos hθltpi
  have hs1 : Real.sin (σ * t * θ) = σ * Real.sin (t * θ) := by
    rw [mul_assoc]; exact hsin _
  have key : Real.sin ((1 - t) * θ) ^ 2 + Real.sin (t * θ) ^ 2 +
      2 * Real.sin ((1 - t) * θ) * Real.sin (t * θ) * Real.cos θ =
      Real.sin θ ^ 2 := by
    have h2 := sin_sq_interp ((1 - t) * θ) (t * θ)
    have h3 : (1 - t) * θ + t * θ = θ := by ring
    rw [h3] at h2
    exact h2
  simp only [Quat.norm2] at h0 h1 ⊢
  rw [hs1]
  have hcos2 : Real.cos θ =
      σ * (q0.x * q1.x + q0.y * q1.y + q0.z * q1.z + q0.w * q1.w) := by
    rw [hcos, hD]; rfl
  have main : (q0.x * Real.sin ((1 - t) * θ) + q1.x * (σ * Real.sin (t * θ))) ^ 2 +
      (q0.y * Real.sin ((1 - t) * θ) + q1.y * (σ * Real.sin (t * θ))) ^ 2 +
      (q0.z * Real.sin ((1 - t) * θ) + q1.z * (σ * Real.sin (t * θ))) ^ 2 +
      (q0.w * Real.sin ((1 - t) * θ) + q1.w * (σ * Real.sin (t * θ))) ^ 2 =
      Real.sin θ ^ 2 := by
    linear_combination key + Real.sin ((1 - t) * θ) ^ 2 * h0 +
      σ ^ 2 * Real.sin (t * θ) ^ 2 * h1 + Real.sin (t * θ) ^ 2 * hσ2 -
      2 * Real.sin ((1 - t) * θ) * Real.sin (t * θ) * hcos2
  have expand : (q0.x * Real.sin ((1 - t) * θ) + q1.x * (σ * Real.sin (t * θ))) ^ 2 *
        (1 / Real.sin θ) ^ 2 +
      (q0.y * Real.sin ((1 - t) * θ) + q1.y * (σ * Real.sin (t * θ))) ^ 2 *
        (1 / Real.sin θ) ^ 2 +
      (q0.z * Real.sin ((1 - t) * θ) + q1.z * (σ * Real.sin (t * θ))) ^ 2 *
        (1 / Real.sin θ) ^ 2 +
      (q0.w * Real.sin ((1 - t) * θ) + q1.w * (σ * Real.sin (t * θ))) ^ 2 *
        (1 / Real.sin θ) ^ 2 = 1 := by
    have hne : Real.sin θ ≠ 0 := ne_of_gt hsinθ
    field_simp
    linear_combination main
  calc ((q0.x * Real.sin ((1 - t) * θ) + q1.x * (σ * Real.sin (t * θ))) *
        (1 / Real.sin θ)) ^ 2 +
      ((q0.y * Real.sin ((1 - t) * θ) + q1.y * (σ * Real.sin (t * θ))) *
        (1 / Real.sin θ)) ^ 2 +
      ((q0.z * Real.sin ((1 - t) * θ) + q1.z * (σ * Real.sin (t * θ))) *
        (1 / Real.sin θ)) ^ 2 +
      ((q0.w * Real.sin ((1 - t) * θ) + q1.w * (σ * Real.sin (t * θ))) *
        (1 / Real.sin θ)) ^ 2
      = (q0.x * Real.sin ((1 - t) * θ) + q1.x * (σ * Real.sin (t * θ))) ^ 2 *
          (1 / Real.sin θ) ^ 2 +
        (q0.y * Real.sin ((1 - t) * θ) + q1.y * (σ * Real.sin (t * θ))) ^ 2 *
          (1 / Real.sin θ) ^ 2 +
        (q0.z * Real.sin ((1 - t) * θ) + q1.z * (σ * Real.sin (t * θ))) ^ 2 *
          (1 / Real.sin θ) ^ 2 +
        (q0.w * Real.sin ((1 - t) * θ) + q1.w * (σ * Real.sin (t * θ))) ^ 2 *
          (1 / Real.sin θ) ^ 2 := by ring
    _ = 1 := expand

/-- The slerp of two unit quaternions has unit norm, for every parameter. -/
theorem Quat.norm2_slerp (q0 q1 : Quat) (t : ℝ)
    (h0 : q0.norm2 = 1) (h1 : q1.norm2 = 1) :
    (Quat.slerp q0 q1 t).norm2 = 1 := by
  rw [Quat.slerp]
  simp only [h0, h1, one_mul, Real.sqrt_one, div_one]
  by_cases hd : |Quat.dot q0 q1| < 1
  · rw [if_pos hd]
    obtain ⟨hlo, hhi⟩ := abs_lt.mp hd
    by_cases hneg : Quat.dot q0 q1 < 0
    · simp only [if_pos hneg]
      exact slerp_norm_aux q0 q1 t (-1) (Or.inr rfl) h0 h1 (by linarith)
        (by linarith)
    · simp only [if_neg hneg]
      have := le_of_not_lt hneg
      exact slerp_norm_aux q0 q1 t 1 (Or.inl rfl) h0 h1 (by linarith)
        (by linarith)
  · rw [if_neg hd]
    exact h0

/-- Spherical interpolation differs from the linear blend: the blend of
perpendicular unit quaternions at the midpoint is not a unit quaternion. -/
theorem slerp_not_lerp :
    ¬ ∀ (p0 p1 : Quat) (s : ℝ), p0.norm2 = 1 → p1.norm2 = 1 →
        0 ≤ s → s ≤ 1 → Quat.slerp p0 p1 s = Quat.lerp p0 p1 s := by
  intro hall
  have hp0 : (⟨0, 0, 0, 1⟩ : Quat).norm2 = 1 := by norm_num [Quat.norm2]
  have hp1 : (⟨1, 0, 0, 0⟩ : Quat).norm2 = 1 := by norm_num [Quat.norm2]
  have heq := hall ⟨0, 0, 0, 1⟩ ⟨1, 0, 0, 0⟩ (1 / 2) hp0 hp1 (by norm_num)
    (by norm_num)
  have hn1 : (Quat.slerp ⟨0, 0, 0, 1⟩ ⟨1, 0, 0, 0⟩ (1 / 2)).norm2 = 1 :=
    Quat.norm2_slerp _ _ _ hp0 hp1
  rw [heq] at hn1
  have hhalf : (Quat.lerp ⟨0, 0, 0, 1⟩ ⟨1, 0, 0, 0⟩ (1 / 2)).norm2 = 1 / 2 := by
    norm_num [Quat.lerp, Quat.norm2]
  rw [hhalf] at hn1
  norm_num at hn1

/-- C4: on a non-ended tick with unit orientation quaternions recorded at
frames `idx` and `idx+1` and `rd ∈ [0,1]`, the orientation `update` produces
is their spherical (shortest-arc) interpolation, the result is a unit
quaternion, and spherical interpolation is not the linear blend of the two
quaternions. -/
theorem update_orientation_slerp_unit (k : GhostKart) (c : GhostController)
    (dt : ℚ) (he : c.ended = false)
    (hev : c.idx < k.m_all_replay_events.length)
    (hpi : c.idx < k.m_all_physic_info.length)
    (ht1 : c.idx + 1 < k.m_all_transform.length)
    (h0 : (k.m_all_transform.get ⟨c.idx, Nat.lt_of_succ_lt ht1⟩).rotation.norm2 = 1)
    (h1 : (k.m_all_transform.get ⟨c.idx + 1, ht1⟩).rotation.norm2 = 1)
    (hrd0 : 0 ≤ c.rd) (hrd1 : c.rd ≤ 1) :
    ∃ k', k.update dt (some c) = some k' ∧
      k'.m_rotation = Quat.slerp
        (k.m_all_transform.get ⟨c.idx, Nat.lt_of_succ_lt ht1⟩).rotation
        (k.m_all_transform.get ⟨c.idx + 1, ht1⟩).rotation (c.rd : ℝ) ∧
      k'.m_rotation.norm2 = 1 ∧
      ¬ ∀ (p0 p1 : Quat) (s : ℝ), p0.norm2 = 1 → p1.norm2 = 1 →
          0 ≤ s → s ≤ 1 → Quat.slerp p0 p1 s = Quat.lerp p0 p1 s := by
  refine ⟨_, k.update_eq_core c dt he hev hpi ht1, rfl, ?_, slerp_not_lerp⟩
  simp only [GhostKart.updateCore]
  exact Quat.norm2_slerp _ _ _ h0 h1

theorem update_orientation_slerp_unit_witness :
    ∃ k', exK2.update 0 (some ⟨false, 0, 1 / 2⟩) = some k' ∧
      k'.m_rotation = Quat.slerp
        (exK2.m_all_transform.get ⟨0, by decide⟩).rotation
        (exK2.m_all_transform.get ⟨1, by decide⟩).rotation ((1 / 2 : ℚ) : ℝ) ∧
      k'.m_rotation.norm2 = 1 ∧
      ¬ ∀ (p0 p1 : Quat) (s : ℝ), p0.norm2 = 1 → p1.norm2 = 1 →
          0 ≤ s → s ≤ 1 → Quat.slerp p0 p1 s = Quat.lerp p0 p1 s :=
  update_orientation_slerp_unit exK2 ⟨false, 0, 1 / 2⟩ 0 rfl (by decide)
    (by decide) (by decide) (by norm_num [exK2, baseKart, exTransform0, exQuatId, Quat.norm2])
    (by norm_num [exK2, baseKart, exTransform1, exQuatId, Quat.norm2])
    (by norm_num) (by norm_num)

end GhostKartSpec
